import Mathlib

/-!
Verification of the Statistical Arbitrage Signal & Risk Engine.

Shallow embedding of the core components of the repository:
`src/analytics/pnl_tracker.py` (PositionSimulator), `src/analytics/statistical.py`
(StatisticalAnalytics), `src/analytics/risk.py` (RiskAnalytics) and
`src/alerts/engine.py` (AlertEngine).  Prices, z-scores, capital and wall-clock
times are modelled as rationals (timestamps are seconds, so `total_seconds` of a
datetime difference is plain subtraction); values that the source computes with
`np.sqrt`/`np.log` live in `ℝ`.  Python dictionaries are modelled as association
lists, Python `None` as `Option.none`, and a raised exception as the `Except.error`
case.
-/

set_option linter.unusedVariables false

namespace PnlTracker

/-- Trade direction, the `'long'`/`'short'` strings of the source. -/
inductive Direction
  | long
  | short
  deriving DecidableEq, Repr

/-- An open trading position (dataclass `Position`). -/
structure Position where
  entry_time : ℚ
  entry_zscore : ℚ
  entry_spread : ℚ
  entry_price_1 : ℚ
  entry_price_2 : ℚ
  direction : Direction
  size : ℚ
  hedge_ratio : ℚ
  deriving DecidableEq, Repr

/-- A completed trade with PnL (dataclass `ClosedTrade`). -/
structure ClosedTrade where
  entry_time : ℚ
  exit_time : ℚ
  entry_zscore : ℚ
  exit_zscore : ℚ
  direction : Direction
  size : ℚ
  pnl : ℚ
  pnl_percent : ℚ
  hold_duration : ℚ
  max_favorable : ℚ
  max_adverse : ℚ
  deriving DecidableEq, Repr

/-- The mutable attributes of a `PositionSimulator` instance. -/
structure SimState where
  initial_capital : ℚ
  current_capital : ℚ
  entry_threshold : ℚ
  exit_threshold : ℚ
  position_size_pct : ℚ
  stop_loss_pct : ℚ
  take_profit_pct : ℚ
  current_position : Option Position
  closed_trades : List ClosedTrade
  max_unrealized_profit : ℚ
  max_unrealized_loss : ℚ
  total_pnl : ℚ
  win_count : ℕ
  loss_count : ℕ
  max_drawdown : ℚ
  peak_capital : ℚ
  deriving DecidableEq, Repr

/-- Constructor `PositionSimulator.__init__`. -/
def mkSimulator (initial_capital entry_threshold exit_threshold position_size_pct
    stop_loss_pct take_profit_pct : ℚ) : SimState :=
  { initial_capital := initial_capital
    current_capital := initial_capital
    entry_threshold := entry_threshold
    exit_threshold := exit_threshold
    position_size_pct := position_size_pct
    stop_loss_pct := stop_loss_pct
    take_profit_pct := take_profit_pct
    current_position := none
    closed_trades := []
    max_unrealized_profit := 0
    max_unrealized_loss := 0
    total_pnl := 0
    win_count := 0
    loss_count := 0
    max_drawdown := 0
    peak_capital := initial_capital }

/-- Method `PositionSimulator._calculate_pnl`, returning the `(pnl, pnl_pct)` pair. -/
def calculatePnl (st : SimState) (current_spread current_price_1 current_price_2 : ℚ) :
    ℚ × ℚ :=
  match st.current_position with
  | none => (0, 0)
  | some pos =>
      let spread_change := current_spread - pos.entry_spread
      let pnl :=
        match pos.direction with
        | .long => pos.size * (spread_change / pos.entry_spread)
        | .short => pos.size * (-spread_change / pos.entry_spread)
      (pnl, pnl / pos.size * 100)

/-- Method `PositionSimulator.check_entry_signal`.  The source returns an entry message
containing the direction (`None` when no entry happens); we return that direction
together with the updated simulator state. -/
def checkEntrySignal (st : SimState) (zscore spread price_1 price_2 hedge_ratio
    timestamp : ℚ) : Option Direction × SimState :=
  if st.current_position.isSome then (none, st)
  else if |zscore| > st.entry_threshold then
    let direction : Direction := if zscore > 0 then .short else .long
    let size := st.current_capital * st.position_size_pct
    let pos : Position :=
      { entry_time := timestamp
        entry_zscore := zscore
        entry_spread := spread
        entry_price_1 := price_1
        entry_price_2 := price_2
        direction := direction
        size := size
        hedge_ratio := hedge_ratio }
    (some direction,
      { st with
          current_position := some pos
          max_unrealized_profit := 0
          max_unrealized_loss := 0 })
  else (none, st)

/-- Method `PositionSimulator._close_position`.  The source returns an exit message built
around the `reason` string; we return the reason together with the updated state. -/
def closePosition (st : SimState) (exit_zscore exit_spread exit_price_1 exit_price_2
    exit_time : ℚ) (reason : String) : Option String × SimState :=
  match st.current_position with
  | none => (none, st)
  | some pos =>
      let p := calculatePnl st exit_spread exit_price_1 exit_price_2
      let pnl := p.1
      let pnl_pct := p.2
      let current_capital := st.current_capital + pnl
      let peak_capital :=
        if current_capital > st.peak_capital then current_capital else st.peak_capital
      let drawdown := (peak_capital - current_capital) / peak_capital
      let trade : ClosedTrade :=
        { entry_time := pos.entry_time
          exit_time := exit_time
          entry_zscore := pos.entry_zscore
          exit_zscore := exit_zscore
          direction := pos.direction
          size := pos.size
          pnl := pnl
          pnl_percent := pnl_pct
          hold_duration := exit_time - pos.entry_time
          max_favorable := st.max_unrealized_profit
          max_adverse := st.max_unrealized_loss }
      (some reason,
        { st with
            current_capital := current_capital
            total_pnl := st.total_pnl + pnl
            peak_capital := peak_capital
            max_drawdown := max st.max_drawdown drawdown
            win_count := if pnl > 0 then st.win_count + 1 else st.win_count
            loss_count := if pnl > 0 then st.loss_count else st.loss_count + 1
            closed_trades := st.closed_trades ++ [trade]
            current_position := none })

/-- Method `PositionSimulator.check_exit_signal`: update the running extremes, then test
the four exit conditions in the source's order and close on the first true one. -/
def checkExitSignal (st : SimState) (zscore spread price_1 price_2 timestamp : ℚ) :
    Option String × SimState :=
  match st.current_position with
  | none => (none, st)
  | some pos =>
      let current_pnl := (calculatePnl st spread price_1 price_2).1
      let st1 :=
        { st with
            max_unrealized_profit := max st.max_unrealized_profit current_pnl
            max_unrealized_loss := min st.max_unrealized_loss current_pnl }
      if |zscore| < st.exit_threshold then
        closePosition st1 zscore spread price_1 price_2 timestamp "Mean reversion complete"
      else if (pos.direction = .long ∧ zscore > 0) ∨ (pos.direction = .short ∧ zscore < 0) then
        closePosition st1 zscore spread price_1 price_2 timestamp "Z-score crossed zero"
      else if current_pnl < -(pos.size * st.stop_loss_pct) then
        closePosition st1 zscore spread price_1 price_2 timestamp "Stop loss"
      else if current_pnl > pos.size * st.take_profit_pct then
        closePosition st1 zscore spread price_1 price_2 timestamp "Take profit"
      else (none, st1)

/-- Method `PositionSimulator.get_performance_metrics`, modelled as the returned Python
dict in insertion order.  Note that the empty-history branch of the source returns
only nine keys (no `total_return`, no `peak_capital`). -/
noncomputable def getPerformanceMetrics (st : SimState) : List (String × ℝ) :=
  let total_trades := st.closed_trades.length
  if total_trades = 0 then
    [("total_trades", 0), ("win_rate", 0), ("avg_win", 0), ("avg_loss", 0),
     ("profit_factor", 0), ("sharpe_ratio", 0), ("max_drawdown", 0),
     ("total_pnl", 0), ("current_capital", (st.current_capital : ℝ))]
  else
    let win_rate : ℚ := (st.win_count : ℚ) / (total_trades : ℚ) * 100
    let wins := (st.closed_trades.filter (fun t => decide (t.pnl > 0))).map ClosedTrade.pnl
    let losses := (st.closed_trades.filter (fun t => decide (t.pnl < 0))).map ClosedTrade.pnl
    let avg_win : ℚ := if wins = [] then 0 else wins.sum / (wins.length : ℚ)
    let avg_loss : ℚ := if losses = [] then 0 else |losses.sum / (losses.length : ℚ)|
    let total_wins : ℚ := wins.sum
    let total_losses : ℚ := |losses.sum|
    let profit_factor : ℚ := if total_losses > 0 then total_wins / total_losses else 0
    let returns := st.closed_trades.map ClosedTrade.pnl_percent
    let mean_return : ℚ := returns.sum / (returns.length : ℚ)
    let var_return : ℚ :=
      (returns.map (fun r => (r - mean_return) ^ 2)).sum / (returns.length : ℚ)
    let sharpe_ratio : ℝ :=
      if returns.length > 1 ∧ 0 < var_return then
        ((mean_return : ℝ) / Real.sqrt (var_return : ℝ)) * Real.sqrt 252
      else 0
    [("total_trades", (total_trades : ℝ)), ("win_rate", (win_rate : ℝ)),
     ("avg_win", (avg_win : ℝ)), ("avg_loss", (avg_loss : ℝ)),
     ("profit_factor", (profit_factor : ℝ)), ("sharpe_ratio", sharpe_ratio),
     ("max_drawdown", ((st.max_drawdown * 100 : ℚ) : ℝ)),
     ("total_pnl", (st.total_pnl : ℝ)),
     ("total_return",
       (((st.current_capital - st.initial_capital) / st.initial_capital * 100 : ℚ) : ℝ)),
     ("current_capital", (st.current_capital : ℝ)),
     ("peak_capital", (st.peak_capital : ℝ))]

end PnlTracker

namespace Statistical

/-- Model of `pandas.Series.dropna`: the input series may contain missing values (`none`). -/
def dropna (s : List (Option ℚ)) : List ℚ := s.filterMap id

/-- The aligned `(Δspread, lagged spread)` rows of `calculate_half_life`: for the
clean samples `c₀, …, c_{n-1}` these are `(cᵢ₊₁ - cᵢ, cᵢ)` for `i = 0, …, n-2`. -/
def halfLifePairs (clean : List ℚ) : List (ℚ × ℚ) :=
  (clean.zip clean.tail).map (fun p => (p.2 - p.1, p.1))

/-- The AR(1) coefficient fitted by `calculate_half_life`, with the source's
sample-count guards: `none` when fewer than 20 clean samples or fewer than 10
aligned rows.  The no-intercept least-squares coefficient of `Δspread` on the
lagged spread is `Σ(Δ·lag) / Σ(lag²)`; when `Σ(lag²) = 0` the pseudo-inverse fit
of the source yields coefficient `0`.  In exact rational arithmetic the fit never
raises, so the source's `except` branch is unreachable here. -/
def halfLifeLambda (spread : List (Option ℚ)) : Option ℚ :=
  let clean := dropna spread
  if clean.length < 20 then none
  else
    let pairs := halfLifePairs clean
    if pairs.length < 10 then none
    else
      let den := (pairs.map (fun p => p.2 * p.2)).sum
      let num := (pairs.map (fun p => p.1 * p.2)).sum
      some (if den = 0 then 0 else num / den)

/-- Method `StatisticalAnalytics.calculate_half_life`: `none` models the NaN result
and `⊤` models `np.inf` (returned when the coefficient is ≥ 0).  For a negative
coefficient the source computes `-np.log(2) / np.log(1 + λ)` in IEEE arithmetic
(warnings suppressed): when `1 + λ < 0`, `np.log` of a negative number is NaN and
the function returns NaN (undefined); when `1 + λ = 0`, `np.log(0) = -inf` and
`-log 2 / -inf = 0.0`; only for `1 + λ > 0` is the real logarithm taken. -/
noncomputable def calculate_half_life (spread : List (Option ℚ)) : Option (WithTop ℝ) :=
  (halfLifeLambda spread).bind (fun lam =>
    if 0 ≤ lam then some (⊤ : WithTop ℝ)
    else if 1 + lam < 0 then none
    else if 1 + lam = 0 then some ((0 : ℝ) : WithTop ℝ)
    else some ((-(Real.log 2) / Real.log (1 + (lam : ℝ)) : ℝ) : WithTop ℝ))

/-- The trailing window of samples ending at index `i` used by
`series.rolling(window=window, ...)`: the last `min (i+1) window` samples. -/
def rollingSlice (s : List ℚ) (window i : ℕ) : List ℚ :=
  (s.take (i + 1)).drop (i + 1 - window)

/-- Arithmetic mean of a list (`.mean()`). -/
def listMean (l : List ℚ) : ℚ := l.sum / (l.length : ℚ)

/-- Sample variance with `ddof = 1`, the square of the pandas rolling `.std()`. -/
def sampleVar (l : List ℚ) : ℚ :=
  (l.map (fun x => (x - listMean l) ^ 2)).sum / ((l.length : ℚ) - 1)

/-- Method `StatisticalAnalytics.calculate_zscore`.  A `none` entry models NaN: the
source returns an all-NaN series when the input is shorter than `min_periods`;
otherwise the rolling mean/std are NaN where the window holds fewer than
`min_periods` samples (and the std additionally where it holds fewer than 2),
a rolling std of exactly 0 is replaced by NaN, and the division propagates NaN. -/
noncomputable def calculate_zscore (s : List ℚ) (window min_periods : ℕ) :
    List (Option ℝ) :=
  if s.length < min_periods then s.map (fun _ => none)
  else
    (List.range s.length).map (fun i =>
      let w := rollingSlice s window i
      if w.length < min_periods ∨ w.length < 2 ∨ sampleVar w = 0 then none
      else some ((((w.getLast?.getD 0 : ℚ) : ℝ) - ((listMean w : ℚ) : ℝ)) /
        Real.sqrt ((sampleVar w : ℚ) : ℝ)))

end Statistical

namespace Risk

/-- Method `RiskAnalytics.calculate_kelly_criterion`. -/
def calculate_kelly_criterion (win_rate avg_win avg_loss : ℚ) : ℚ :=
  if avg_loss = 0 ∨ win_rate = 0 then 0
  else
    let loss_rate := 1 - win_rate
    let win_loss_ratio := avg_win / |avg_loss|
    let kelly := (win_rate * win_loss_ratio - loss_rate) / win_loss_ratio
    max 0 (min kelly (1 / 4))

/-- The drawdown component of `calculate_portfolio_health_score`
(`0.40` weight; piecewise bands on `current_drawdown_pct`). -/
def ddScore (current_dd_pct : ℚ) : ℚ :=
  if current_dd_pct < 5 then 100
  else if current_dd_pct < 10 then 90 - (current_dd_pct - 5) * 2
  else if current_dd_pct < 20 then 80 - (current_dd_pct - 10)
  else if current_dd_pct < 40 then 70 - (current_dd_pct - 20) * (3 / 2)
  else max 0 (40 - (current_dd_pct - 40))

/-- The Sharpe component of `calculate_portfolio_health_score`
(`None` maps to the neutral 50). -/
def sharpeScore (sharpe : Option ℚ) : ℚ :=
  match sharpe with
  | none => 50
  | some s =>
      if s ≥ 2 then 100
      else if s ≥ 1 then 70 + (s - 1) * 30
      else if s ≥ 0 then 50 + s * 20
      else max 0 (50 + s * 50)

/-- The risk-utilization component of `calculate_portfolio_health_score`. -/
def utilScore (risk_util : ℚ) : ℚ :=
  if 50 ≤ risk_util ∧ risk_util ≤ 80 then 100
  else if risk_util < 50 then 70 + risk_util * (3 / 5)
  else max 0 (100 - (risk_util - 80))

/-- The health level assigned to a composite score. -/
def healthLevel (health_score : ℚ) : String :=
  if health_score ≥ 80 then "Excellent"
  else if health_score ≥ 65 then "Good"
  else if health_score ≥ 50 then "Fair"
  else if health_score ≥ 35 then "Poor"
  else "Critical"

/-- Method `RiskAnalytics.calculate_portfolio_health_score`, taking the three fields of
the risk-metrics dict that the source reads (`current_drawdown_pct`,
`sharpe_ratio` — possibly `None` — and `risk_utilization`) and returning the
composite `health_score` together with the `health_level`. -/
def calculate_portfolio_health_score (current_dd_pct : ℚ) (sharpe : Option ℚ)
    (risk_util : ℚ) : ℚ × String :=
  let health_score :=
    ddScore current_dd_pct * (2 / 5) + sharpeScore sharpe * (7 / 20) +
      utilScore risk_util * (1 / 4)
  (health_score, healthLevel health_score)

end Risk

namespace Alerts

/-- Enum `AlertType`. -/
inductive AlertType
  | zscore_threshold
  | spread_breakout
  | volatility_spike
  | correlation_break
  | custom
  deriving DecidableEq, Repr

/-- Enum `AlertSeverity`. -/
inductive AlertSeverity
  | info
  | warning
  | critical
  deriving DecidableEq, Repr

/-- The optional `analytics_data` context passed to a condition predicate. -/
def AnalyticsData := List (String × ℚ)

/-- A condition predicate `(current_value, threshold, analytics_data) → bool`;
`Except.error` models a raised exception. -/
def Cond := ℚ → ℚ → Option AnalyticsData → Except String Bool

/-- Dataclass `AlertRule`. -/
structure AlertRule where
  rule_id : String
  alert_type : AlertType
  symbol : String
  condition : Cond
  threshold : ℚ
  severity : AlertSeverity := .warning
  cooldown_seconds : ℚ := 60
  message_template : String := "Alert triggered for {symbol}"
  enabled : Bool := true

/-- Dataclass `Alert`. -/
structure Alert where
  rule_id : String
  alert_type : AlertType
  symbol : String
  severity : AlertSeverity
  message : String
  value : ℚ
  threshold : ℚ
  timestamp : ℚ
  deriving DecidableEq, Repr

/-- A registered callback; `Except.error` models a raised exception, which the
engine catches and logs. -/
def Callback := Alert → Except String Unit

/-- The mutable attributes of an `AlertEngine` instance (dicts as association
lists). -/
structure EngineState where
  check_interval : ℚ
  rules : List (String × AlertRule)
  alert_history : List Alert
  last_trigger_times : List (String × ℚ)
  callbacks : List Callback
  running : Bool

/-- Constructor `AlertEngine.__init__`. -/
def mkEngine (check_interval : ℚ) : EngineState :=
  { check_interval := check_interval
    rules := []
    alert_history := []
    last_trigger_times := []
    callbacks := []
    running := false }

/-- Assignment `d[k] = v` on a dict modelled as an association list. -/
def setKey {α : Type} (l : List (String × α)) (k : String) (v : α) :
    List (String × α) :=
  (k, v) :: l.filter (fun p => decide (p.1 ≠ k))

/-- Method `AlertEngine.add_rule`. -/
def addRule (st : EngineState) (rule : AlertRule) : EngineState :=
  { st with rules := setKey st.rules rule.rule_id rule }

/-- Method `AlertEngine.register_callback`. -/
def registerCallback (st : EngineState) (cb : Callback) : EngineState :=
  { st with callbacks := st.callbacks ++ [cb] }

/-- Model of `message_template.format(symbol=…, value=…, threshold=…)`, abstracted as the
template tagged with its three interpolated arguments. -/
def formatMessage (template symbol : String) (value threshold : ℚ) : String :=
  template ++ "|symbol=" ++ symbol ++ "|value=" ++ toString value ++
    "|threshold=" ++ toString threshold

/-- The cooldown test of `check_rule`: a previous trigger time is recorded for
this rule and fewer than `cooldown_seconds` have elapsed since. -/
def cooldownActive (st : EngineState) (rule : AlertRule) (now : ℚ) : Bool :=
  match st.last_trigger_times.lookup rule.rule_id with
  | some last_trigger => decide (now - last_trigger < rule.cooldown_seconds)
  | none => false

/-- Method `AlertEngine.check_rule`.  The wall-clock reads collapse to the single
parameter `now`.  Besides the returned `Optional[Alert]` and the updated engine
state, we return the outcome of every callback invocation (the source awaits or
calls each registered callback in order, catching and logging its exception). -/
def checkRule (st : EngineState) (rule : AlertRule) (current_value : ℚ)
    (analytics_data : Option AnalyticsData) (now : ℚ) :
    Option Alert × List (Except String Unit) × EngineState :=
  if ¬ rule.enabled then (none, [], st)
  else if cooldownActive st rule now then (none, [], st)
  else
    match rule.condition current_value rule.threshold analytics_data with
    | .error _ => (none, [], st)
    | .ok false => (none, [], st)
    | .ok true =>
        let alert : Alert :=
          { rule_id := rule.rule_id
            alert_type := rule.alert_type
            symbol := rule.symbol
            severity := rule.severity
            message := formatMessage rule.message_template rule.symbol
              current_value rule.threshold
            value := current_value
            threshold := rule.threshold
            timestamp := now }
        (some alert,
          st.callbacks.map (fun cb => cb alert),
          { st with
              last_trigger_times := setKey st.last_trigger_times rule.rule_id now
              alert_history := st.alert_history ++ [alert] })

/-- Method `AlertEngine.get_recent_alerts`. -/
def getRecentAlerts (st : EngineState) (minutes : ℚ) (now : ℚ) : List Alert :=
  let cutoff := now - minutes * 60
  st.alert_history.filter (fun a => decide (cutoff < a.timestamp))

/-- Method `AlertEngine.get_alerts_by_symbol`. -/
def getAlertsBySymbol (st : EngineState) (symbol : String) : List Alert :=
  st.alert_history.filter (fun a => a.symbol == symbol)

/-- Method `AlertEngine.clear_history`. -/
def clearHistory (st : EngineState) : EngineState :=
  { st with alert_history := [] }

/-- Predicate `AlertConditions.zscore_above`. -/
def zscore_above (value threshold : ℚ) (data : Option AnalyticsData) :
    Except String Bool :=
  .ok (decide (|value| > threshold))

end Alerts

/-! Concrete instances used to exercise the embedded operations. -/

/-- A fresh simulator with the source's default parameters
(`initial_capital=10000`, `entry_threshold=2.0`, `exit_threshold=0.2`,
`position_size_pct=0.10`, `stop_loss_pct=0.05`, `take_profit_pct=0.10`). -/
def simDefault : PnlTracker.SimState :=
  PnlTracker.mkSimulator 10000 2 (1 / 5) (1 / 10) (1 / 20) (1 / 10)

/-- Entry evaluation on the default simulator at `zscore = 2.5`, `spread = 10`,
prices `100`/`50`, hedge ratio `2`, time `0`. -/
def simEntry : Option PnlTracker.Direction × PnlTracker.SimState :=
  PnlTracker.checkEntrySignal simDefault (5 / 2) 10 100 50 2 0

/-- Exit evaluation on the state after `simEntry` at `zscore = 0.1`, `spread = 8`,
prices `98`/`49`, time `60`. -/
def simExit : Option String × PnlTracker.SimState :=
  PnlTracker.checkExitSignal simEntry.2 (1 / 10) 8 98 49 60

/-- A short position of size 1000 entered at spread 10 (z-score 2.5). -/
def posOpen : PnlTracker.Position :=
  { entry_time := 0
    entry_zscore := 5 / 2
    entry_spread := 10
    entry_price_1 := 100
    entry_price_2 := 50
    direction := .short
    size := 1000
    hedge_ratio := 2 }

/-- The default simulator holding the open position `posOpen`. -/
def simOpen : PnlTracker.SimState :=
  { simDefault with current_position := some posOpen }

/-- A clean 15-sample spread series `1, 2, …, 15`. -/
def series15 : List (Option ℚ) :=
  [some 1, some 2, some 3, some 4, some 5, some 6, some 7, some 8, some 9, some 10,
   some 11, some 12, some 13, some 14, some 15]

/-- A clean constant 20-sample spread series. -/
def series20 : List (Option ℚ) :=
  [some 1, some 1, some 1, some 1, some 1, some 1, some 1, some 1, some 1, some 1,
   some 1, some 1, some 1, some 1, some 1, some 1, some 1, some 1, some 1, some 1]

/-- A clean alternating 20-sample spread series `1, -1, 1, -1, …`, whose fitted
AR(1) coefficient is exactly `-2`. -/
def seriesAlt : List (Option ℚ) :=
  [some 1, some (-1), some 1, some (-1), some 1, some (-1), some 1, some (-1),
   some 1, some (-1), some 1, some (-1), some 1, some (-1), some 1, some (-1),
   some 1, some (-1), some 1, some (-1)]

/-- A z-score threshold rule with a 60-second cooldown
(`AlertRuleBuilder.zscore_threshold_alert` with threshold 2.0). -/
def ruleZ : Alerts.AlertRule :=
  { rule_id := "zscore_btcusdt-ethusdt_2.0"
    alert_type := .zscore_threshold
    symbol := "btcusdt-ethusdt"
    condition := Alerts.zscore_above
    threshold := 2
    severity := .warning
    cooldown_seconds := 60
    message_template := "Z-score for {symbol} = {value} (threshold: {threshold})"
    enabled := true }

/-- The rule `ruleZ` disabled. -/
def ruleZoff : Alerts.AlertRule := { ruleZ with enabled := false }

/-- A fresh engine holding `ruleZ`. -/
def engine0 : Alerts.EngineState := Alerts.addRule (Alerts.mkEngine (1 / 2)) ruleZ

/-- The first evaluation of `ruleZ` on `engine0`: value 2.5 at time 0. -/
def engineFire1 : Option Alerts.Alert × List (Except String Unit) × Alerts.EngineState :=
  Alerts.checkRule engine0 ruleZ (5 / 2) none 0

/-- The engine state after the first trigger. -/
def engine1 : Alerts.EngineState := engineFire1.2.2

/-- C8: `kelly_criterion` returns exactly 0 when `avg_loss = 0` or `win_rate = 0`,
otherwise returns `(win_rate·(avg_win/|avg_loss|) − (1−win_rate)) / (avg_win/|avg_loss|)`
clamped to `[0, 0.25]`; consequently for every `win_rate ∈ [0,1]`, `avg_win > 0`,
`avg_loss > 0` — including `win_rate = 1` — the result lies in `[0, 0.25]`. -/
theorem kelly_criterion_spec (win_rate avg_win avg_loss : ℚ) :
    (avg_loss = 0 ∨ win_rate = 0 →
      Risk.calculate_kelly_criterion win_rate avg_win avg_loss = 0)
    ∧ (avg_loss ≠ 0 → win_rate ≠ 0 →
        Risk.calculate_kelly_criterion win_rate avg_win avg_loss =
          max 0 (min ((win_rate * (avg_win / |avg_loss|) - (1 - win_rate)) /
            (avg_win / |avg_loss|)) (1 / 4)))
    ∧ (0 ≤ win_rate → win_rate ≤ 1 → 0 < avg_win → 0 < avg_loss →
        0 ≤ Risk.calculate_kelly_criterion win_rate avg_win avg_loss ∧
        Risk.calculate_kelly_criterion win_rate avg_win avg_loss ≤ 1 / 4) := by
  refine ⟨?_, ?_, ?_⟩
  · intro h
    simp only [Risk.calculate_kelly_criterion, if_pos h]
  · intro h1 h2
    simp only [Risk.calculate_kelly_criterion]
    rw [if_neg (by tauto)]
  · intro h1 h2 h3 h4
    unfold Risk.calculate_kelly_criterion
    split_ifs with h
    · norm_num
    · exact ⟨le_max_left _ _, max_le (by norm_num) (min_le_right _ _)⟩

/-- Witness for C8 at `win_rate = 1`, `avg_win = 2`, `avg_loss = 1`. -/
theorem kelly_criterion_spec_witness :
    0 ≤ Risk.calculate_kelly_criterion 1 2 1 ∧
    Risk.calculate_kelly_criterion 1 2 1 ≤ 1 / 4 :=
  (kelly_criterion_spec 1 2 1).2.2 (by norm_num) (by norm_num) (by norm_num) (by norm_num)

/-- C5 (amended): with an empty closed-trade history `get_performance_metrics`
never errors and returns `total_trades = 0` with neutral zero statistics, but the
returned dict holds only the nine keys `total_trades`, `win_rate`, `avg_win`,
`avg_loss`, `profit_factor`, `sharpe_ratio`, `max_drawdown`, `total_pnl` and
`current_capital` — the `total_return` and `peak_capital` fields of the claim are
absent from the empty-history result. -/
theorem performance_metrics_empty_history (st : PnlTracker.SimState)
    (h : st.closed_trades = []) :
    PnlTracker.getPerformanceMetrics st =
      [("total_trades", 0), ("win_rate", 0), ("avg_win", 0), ("avg_loss", 0),
       ("profit_factor", 0), ("sharpe_ratio", 0), ("max_drawdown", 0),
       ("total_pnl", 0), ("current_capital", (st.current_capital : ℝ))] := by
  simp [PnlTracker.getPerformanceMetrics, h]

/-- Witness for C5 on a fresh default simulator. -/
theorem performance_metrics_empty_history_witness :
    PnlTracker.getPerformanceMetrics simDefault =
      [("total_trades", 0), ("win_rate", 0), ("avg_win", 0), ("avg_loss", 0),
       ("profit_factor", 0), ("sharpe_ratio", 0), ("max_drawdown", 0),
       ("total_pnl", 0), ("current_capital", (10000 : ℝ))] := by
  have h := performance_metrics_empty_history simDefault rfl
  simpa [simDefault, PnlTracker.mkSimulator] using h

/-- C5 counterexample: on a fresh simulator (empty history) the result of
`get_performance_metrics` contains neither the `total_return` key nor the
`peak_capital` key, refuting the claim that every listed field is present. -/
theorem performance_metrics_missing_keys_cex :
    "total_return" ∉ (PnlTracker.getPerformanceMetrics simDefault).map Prod.fst ∧
    "peak_capital" ∉ (PnlTracker.getPerformanceMetrics simDefault).map Prod.fst := by
  constructor <;>
    simp [PnlTracker.getPerformanceMetrics, simDefault, PnlTracker.mkSimulator]

lemma halfLifePairs_length (clean : List ℚ) :
    (Statistical.halfLifePairs clean).length = clean.length - 1 := by
  simp [Statistical.halfLifePairs, List.length_zip]

/-- C6 (amended): `calculate_half_life` is undefined whenever the series has
fewer than 20 clean samples (even when 10 or more usable `(Δ, lag)` pairs exist);
with at least 20 clean samples there are at least 19 ≥ 10 usable pairs and the
exact rational regression always succeeds, producing a coefficient `λ`.  The
result is then `+∞` when `λ ≥ 0`, the real number `−ln 2 / ln (1 + λ)` when
`−1 < λ < 0`, `0` when `λ = −1` (the source evaluates `−ln 2 / log 0 = −ln 2 / −∞`),
and undefined when `λ < −1`, where the source takes the log of a negative number
and returns NaN. -/
theorem half_life_defined_spec (spread : List (Option ℚ)) :
    ((Statistical.dropna spread).length < 20 →
      Statistical.calculate_half_life spread = none)
    ∧ (20 ≤ (Statistical.dropna spread).length →
        10 ≤ (Statistical.halfLifePairs (Statistical.dropna spread)).length ∧
        (Statistical.halfLifeLambda spread).isSome)
    ∧ (∀ lam, Statistical.halfLifeLambda spread = some lam → 0 ≤ lam →
        Statistical.calculate_half_life spread = some ⊤)
    ∧ (∀ lam, Statistical.halfLifeLambda spread = some lam → -1 < lam → lam < 0 →
        Statistical.calculate_half_life spread =
          some ((-(Real.log 2) / Real.log (1 + (lam : ℝ)) : ℝ) : WithTop ℝ))
    ∧ (∀ lam, Statistical.halfLifeLambda spread = some lam → lam = -1 →
        Statistical.calculate_half_life spread = some ((0 : ℝ) : WithTop ℝ))
    ∧ (∀ lam, Statistical.halfLifeLambda spread = some lam → lam < -1 →
        Statistical.calculate_half_life spread = none) := by
  refine ⟨?_, ?_, ?_, ?_, ?_, ?_⟩
  · intro h
    simp [Statistical.calculate_half_life, Statistical.halfLifeLambda, h]
  · intro h
    have hp := halfLifePairs_length (Statistical.dropna spread)
    constructor
    · omega
    · simp only [Statistical.halfLifeLambda]
      rw [if_neg (by omega), if_neg (by omega)]
      simp
  · intro lam hl hge
    simp [Statistical.calculate_half_life, hl, if_pos hge]
  · intro lam hl hgt hlt
    simp only [Statistical.calculate_half_life, hl, Option.some_bind']
    rw [if_neg (not_le.mpr hlt), if_neg (by linarith), if_neg (by linarith)]
  · intro lam hl he
    simp only [Statistical.calculate_half_life, hl, Option.some_bind', he]
    rw [if_neg (by norm_num), if_neg (by norm_num), if_pos (by norm_num)]
  · intro lam hl hlt
    simp only [Statistical.calculate_half_life, hl, Option.some_bind']
    rw [if_neg (by linarith), if_pos (by linarith)]

/-- Witness for C6 on the constant 20-sample series (fitted coefficient 0,
half-life `+∞`) and on the alternating 20-sample series (fitted coefficient
`−2`, where the source takes the log of a negative number and the half-life is
undefined). -/
theorem half_life_defined_spec_witness :
    Statistical.calculate_half_life series20 = some ⊤ ∧
    Statistical.calculate_half_life seriesAlt = none := by
  have h20 := half_life_defined_spec series20
  have halt := half_life_defined_spec seriesAlt
  have hlam : Statistical.halfLifeLambda series20 = some 0 := by
    norm_num [series20, Statistical.halfLifeLambda, Statistical.dropna,
      Statistical.halfLifePairs, List.zip, List.zipWith, List.filterMap]
  have hlamAlt : Statistical.halfLifeLambda seriesAlt = some (-2) := by
    norm_num [seriesAlt, Statistical.halfLifeLambda, Statistical.dropna,
      Statistical.halfLifePairs, List.zip, List.zipWith, List.filterMap]
  exact ⟨h20.2.2.1 0 hlam le_rfl, halt.2.2.2.2.2 (-2) hlamAlt (by norm_num)⟩

/-- C6 counterexample: the clean 15-sample series `1, …, 15` yields 14 ≥ 10
usable `(Δ, lag)` pairs and a nonzero regression denominator (so the AR(1) fit
succeeds), yet `calculate_half_life` is undefined on it, because the source first
requires at least 20 clean samples. -/
theorem half_life_guard_cex :
    10 ≤ (Statistical.halfLifePairs (Statistical.dropna series15)).length ∧
    ((Statistical.halfLifePairs (Statistical.dropna series15)).map
      (fun p => p.2 * p.2)).sum ≠ 0 ∧
    Statistical.calculate_half_life series15 = none := by
  refine ⟨by decide, ?_, ?_⟩
  · norm_num [series15, Statistical.dropna, Statistical.halfLifePairs,
      List.zip, List.zipWith, List.filterMap]
  · simp [Statistical.calculate_half_life,
      (by decide : Statistical.halfLifeLambda series15 = none)]

lemma ddScore_anti {a b : ℚ} (h : a ≤ b) : Risk.ddScore b ≤ Risk.ddScore a := by
  unfold Risk.ddScore
  split_ifs <;>
    first
      | linarith
      | exact max_le_max le_rfl (by linarith)
      | exact max_le (by linarith) (by linarith)

lemma sharpeScore_mono {a b : ℚ} (h : a ≤ b) :
    Risk.sharpeScore (some a) ≤ Risk.sharpeScore (some b) := by
  simp only [Risk.sharpeScore]
  split_ifs <;>
    first
      | linarith
      | exact max_le_max le_rfl (by linarith)
      | exact max_le (by linarith) (by linarith)

lemma rollingSlice_length (s : List ℚ) (window i : ℕ) (hi : i < s.length) :
    (Statistical.rollingSlice s window i).length = min (i + 1) window := by
  simp [Statistical.rollingSlice, List.length_drop, List.length_take]
  omega

/-- C7: `calculate_zscore` never produces an infinite value.  When the series is
shorter than `min_periods` every output point is undefined; any point whose
0-based index `i` satisfies `i + 1 < min_periods` (a point before the
`min_periods`-th sample) is undefined; any point whose rolling variance is
exactly 0 is undefined rather than a division by zero; and every defined point
has at least `min_periods` (and at least 2) samples in its window and a nonzero
rolling variance as divisor. -/
theorem zscore_undefined_spec (s : List ℚ) (window min_periods : ℕ) :
    (s.length < min_periods →
      Statistical.calculate_zscore s window min_periods = s.map (fun _ => none))
    ∧ (∀ i, i < s.length → i + 1 < min_periods →
        (Statistical.calculate_zscore s window min_periods)[i]? = some none)
    ∧ (∀ i, i < s.length →
        Statistical.sampleVar (Statistical.rollingSlice s window i) = 0 →
        (Statistical.calculate_zscore s window min_periods)[i]? = some none)
    ∧ (∀ i x, (Statistical.calculate_zscore s window min_periods)[i]? = some (some x) →
        min_periods ≤ (Statistical.rollingSlice s window i).length ∧
        2 ≤ (Statistical.rollingSlice s window i).length ∧
        Statistical.sampleVar (Statistical.rollingSlice s window i) ≠ 0) := by
  refine ⟨?_, ?_, ?_, ?_⟩
  · intro h
    simp [Statistical.calculate_zscore, h]
  · intro i hi hmp
    unfold Statistical.calculate_zscore
    split_ifs with hlen
    · rw [List.getElem?_map, List.getElem?_eq_getElem hi]
      rfl
    · rw [List.getElem?_map, List.getElem?_range hi]
      have hw : (Statistical.rollingSlice s window i).length ≤ i + 1 := by
        rw [rollingSlice_length s window i hi]; omega
      simp only [Option.map_some']
      rw [if_pos (Or.inl (by omega))]
  · intro i hi hv
    unfold Statistical.calculate_zscore
    split_ifs with hlen
    · rw [List.getElem?_map, List.getElem?_eq_getElem hi]
      rfl
    · rw [List.getElem?_map, List.getElem?_range hi]
      simp only [Option.map_some']
      rw [if_pos (Or.inr (Or.inr hv))]
  · intro i x h
    unfold Statistical.calculate_zscore at h
    split_ifs at h with hlen
    · rw [List.getElem?_map] at h
      rcases hui : s[i]? with _ | u <;> rw [hui] at h <;> simp at h
    · by_cases hi : i < s.length
      · rw [List.getElem?_map, List.getElem?_range hi] at h
        simp only [Option.map_some'] at h
        split_ifs at h with hc
        · simp at h
        · push_neg at hc
          refine ⟨by omega, by omega, hc.2.2⟩
      · exfalso
        rw [List.getElem?_eq_none (by simpa using Nat.le_of_not_lt hi)] at h
        exact Option.noConfusion h

/-- Witness for C7 on the series `[1, 1, 5]` with `window = 3`,
`min_periods = 2`: the first point is undefined. -/
theorem zscore_undefined_spec_witness :
    (Statistical.calculate_zscore [1, 1, 5] 3 2)[0]? = some none :=
  (zscore_undefined_spec [1, 1, 5] 3 2).2.1 0 (by norm_num) (by norm_num)

/-- C9: the portfolio health score is non-increasing in `current_drawdown_pct`
(other inputs fixed) and non-decreasing in `sharpe_ratio` (other inputs fixed,
both values defined). -/
theorem health_score_monotone (d d1 d2 u s1 s2 : ℚ) (sh : Option ℚ) :
    (d1 ≤ d2 →
      (Risk.calculate_portfolio_health_score d2 sh u).1 ≤
        (Risk.calculate_portfolio_health_score d1 sh u).1)
    ∧ (s1 ≤ s2 →
        (Risk.calculate_portfolio_health_score d (some s1) u).1 ≤
          (Risk.calculate_portfolio_health_score d (some s2) u).1) := by
  constructor
  · intro h
    have hd := ddScore_anti h
    simp only [Risk.calculate_portfolio_health_score]
    linarith
  · intro h
    have hs := sharpeScore_mono h
    simp only [Risk.calculate_portfolio_health_score]
    linarith

/-- Witness for C9: drawdown 6% vs 12% with Sharpe 1, and Sharpe 0 vs 3 with
drawdown 3%, both at 60% risk utilization. -/
theorem health_score_monotone_witness :
    (Risk.calculate_portfolio_health_score 12 (some 1) 60).1 ≤
      (Risk.calculate_portfolio_health_score 6 (some 1) 60).1 ∧
    (Risk.calculate_portfolio_health_score 3 (some 0) 60).1 ≤
      (Risk.calculate_portfolio_health_score 3 (some 3) 60).1 :=
  ⟨(health_score_monotone 3 6 12 60 0 3 (some 1)).1 (by norm_num),
   (health_score_monotone 3 6 12 60 0 3 (some 1)).2 (by norm_num)⟩

lemma closePosition_proj (st : PnlTracker.SimState) (pos : PnlTracker.Position)
    (h : st.current_position = some pos) (z s p1 p2 t : ℚ) (reason : String) :
    (PnlTracker.closePosition st z s p1 p2 t reason).1 = some reason ∧
    (PnlTracker.closePosition st z s p1 p2 t reason).2.max_unrealized_profit =
      st.max_unrealized_profit ∧
    (PnlTracker.closePosition st z s p1 p2 t reason).2.max_unrealized_loss =
      st.max_unrealized_loss := by
  simp [PnlTracker.closePosition, h]

/-- C1: while a position is open, `check_exit_signal` tests the four exit
conditions in strict priority order — mean reversion complete, z-score crossed
zero, stop loss, take profit — and the first true condition determines the
recorded exit reason; in particular when conditions 1 and 3 hold simultaneously
the reason is mean reversion complete, not stop loss.  On every evaluation,
closing or not, the max-favorable tracker becomes the max and the max-adverse
tracker the min of the unrealized pnl seen. -/
theorem exit_signal_priority_and_trackers (st : PnlTracker.SimState)
    (pos : PnlTracker.Position) (zscore spread price_1 price_2 timestamp : ℚ)
    (hpos : st.current_position = some pos) :
    (|zscore| < st.exit_threshold →
      (PnlTracker.checkExitSignal st zscore spread price_1 price_2 timestamp).1 =
        some "Mean reversion complete")
    ∧ (¬ |zscore| < st.exit_threshold →
        (pos.direction = .long ∧ zscore > 0) ∨ (pos.direction = .short ∧ zscore < 0) →
        (PnlTracker.checkExitSignal st zscore spread price_1 price_2 timestamp).1 =
          some "Z-score crossed zero")
    ∧ (¬ |zscore| < st.exit_threshold →
        ¬ ((pos.direction = .long ∧ zscore > 0) ∨ (pos.direction = .short ∧ zscore < 0)) →
        (PnlTracker.calculatePnl st spread price_1 price_2).1 <
          -(pos.size * st.stop_loss_pct) →
        (PnlTracker.checkExitSignal st zscore spread price_1 price_2 timestamp).1 =
          some "Stop loss")
    ∧ (¬ |zscore| < st.exit_threshold →
        ¬ ((pos.direction = .long ∧ zscore > 0) ∨ (pos.direction = .short ∧ zscore < 0)) →
        ¬ (PnlTracker.calculatePnl st spread price_1 price_2).1 <
          -(pos.size * st.stop_loss_pct) →
        (PnlTracker.calculatePnl st spread price_1 price_2).1 >
          pos.size * st.take_profit_pct →
        (PnlTracker.checkExitSignal st zscore spread price_1 price_2 timestamp).1 =
          some "Take profit")
    ∧ (¬ |zscore| < st.exit_threshold →
        ¬ ((pos.direction = .long ∧ zscore > 0) ∨ (pos.direction = .short ∧ zscore < 0)) →
        ¬ (PnlTracker.calculatePnl st spread price_1 price_2).1 <
          -(pos.size * st.stop_loss_pct) →
        ¬ (PnlTracker.calculatePnl st spread price_1 price_2).1 >
          pos.size * st.take_profit_pct →
        (PnlTracker.checkExitSignal st zscore spread price_1 price_2 timestamp).1 = none)
    ∧ (|zscore| < st.exit_threshold →
        (PnlTracker.calculatePnl st spread price_1 price_2).1 <
          -(pos.size * st.stop_loss_pct) →
        (PnlTracker.checkExitSignal st zscore spread price_1 price_2 timestamp).1 =
          some "Mean reversion complete")
    ∧ (PnlTracker.checkExitSignal st zscore spread price_1 price_2 timestamp).2.max_unrealized_profit =
        max st.max_unrealized_profit (PnlTracker.calculatePnl st spread price_1 price_2).1
    ∧ (PnlTracker.checkExitSignal st zscore spread price_1 price_2 timestamp).2.max_unrealized_loss =
        min st.max_unrealized_loss (PnlTracker.calculatePnl st spread price_1 price_2).1 := by
  refine ⟨?_, ?_, ?_, ?_, ?_, ?_, ?_, ?_⟩
  · intro h1
    simp [PnlTracker.checkExitSignal, hpos, h1, PnlTracker.closePosition]
  · intro h1 h2
    simp [PnlTracker.checkExitSignal, hpos, h1, h2, PnlTracker.closePosition]
  · intro h1 h2 h3
    simp [PnlTracker.checkExitSignal, hpos, h1, h2, h3, PnlTracker.closePosition]
  · intro h1 h2 h3 h4
    simp [PnlTracker.checkExitSignal, hpos, h1, h2, h3, h4, PnlTracker.closePosition]
  · intro h1 h2 h3 h4
    simp [PnlTracker.checkExitSignal, hpos, h1, h2, h3, h4]
  · intro h1 h3
    simp [PnlTracker.checkExitSignal, hpos, h1, PnlTracker.closePosition]
  · simp only [PnlTracker.checkExitSignal, hpos]
    split_ifs <;> simp [PnlTracker.closePosition, hpos]
  · simp only [PnlTracker.checkExitSignal, hpos]
    split_ifs <;> simp [PnlTracker.closePosition, hpos]

/-- Witness for C1 on the open short position `posOpen` at `zscore = 0.1`,
`spread = 8`: condition 1 holds, so the position closes with reason
mean reversion complete. -/
theorem exit_signal_priority_witness :
    (PnlTracker.checkExitSignal simOpen (1 / 10) 8 98 49 60).1 =
      some "Mean reversion complete" := by
  have h := exit_signal_priority_and_trackers simOpen posOpen (1 / 10) 8 98 49 60 rfl
  exact h.1 (by rw [abs_of_pos] <;> norm_num [simOpen, simDefault, PnlTracker.mkSimulator])

/-- C2: `check_entry_signal` opens a position iff the simulator is FLAT and
`|zscore| > entry_threshold` (strict); the new position is short when
`zscore > 0` and long otherwise, with size `current_capital × position_size_pct`
and both running trackers reset to 0.  Concretely, from a fresh default
simulator, `zscore = 2.5` opens a short of size 1000, and a following
`check_exit_signal` with `zscore = 0.1` closes it with reason mean reversion
complete, leaving the state FLAT with exactly one closed trade. -/
theorem entry_signal_spec (st : PnlTracker.SimState)
    (zscore spread price_1 price_2 hedge_ratio timestamp : ℚ) :
    ((PnlTracker.checkEntrySignal st zscore spread price_1 price_2 hedge_ratio
        timestamp).1.isSome
      ↔ st.current_position = none ∧ |zscore| > st.entry_threshold)
    ∧ (st.current_position = none → |zscore| > st.entry_threshold →
        PnlTracker.checkEntrySignal st zscore spread price_1 price_2 hedge_ratio
          timestamp =
          (some (if zscore > 0 then PnlTracker.Direction.short else .long),
            { st with
                current_position := some
                  { entry_time := timestamp
                    entry_zscore := zscore
                    entry_spread := spread
                    entry_price_1 := price_1
                    entry_price_2 := price_2
                    direction := if zscore > 0 then .short else .long
                    size := st.current_capital * st.position_size_pct
                    hedge_ratio := hedge_ratio }
                max_unrealized_profit := 0
                max_unrealized_loss := 0 }))
    ∧ simEntry.1 = some PnlTracker.Direction.short
    ∧ simEntry.2.current_position = some posOpen
    ∧ simExit.1 = some "Mean reversion complete"
    ∧ simExit.2.current_position = none
    ∧ simExit.2.closed_trades.length = 1 := by
  refine ⟨?_, ?_, ?_, ?_, ?_, ?_, ?_⟩
  · rcases hc : st.current_position with _ | p
    · by_cases hz : |zscore| > st.entry_threshold <;>
        simp [PnlTracker.checkEntrySignal, hc, hz]
    · simp [PnlTracker.checkEntrySignal, hc]
  · intro h1 h2
    simp [PnlTracker.checkEntrySignal, h1, h2]
  · have ha : (2 : ℚ) < |5 / 2| := by norm_num [lt_abs]
    norm_num [simEntry, simDefault, PnlTracker.mkSimulator,
      PnlTracker.checkEntrySignal, ha]
  · have ha : (2 : ℚ) < |5 / 2| := by norm_num [lt_abs]
    norm_num [simEntry, simDefault, posOpen, PnlTracker.mkSimulator,
      PnlTracker.checkEntrySignal, ha]
  · have ha : (2 : ℚ) < |5 / 2| := by norm_num [lt_abs]
    have hb : |(1 : ℚ) / 10| < 1 / 5 := by norm_num [abs_lt]
    norm_num [simExit, simEntry, simDefault, PnlTracker.mkSimulator,
      PnlTracker.checkEntrySignal, PnlTracker.checkExitSignal,
      PnlTracker.closePosition, PnlTracker.calculatePnl, ha, hb]
  · have ha : (2 : ℚ) < |5 / 2| := by norm_num [lt_abs]
    have hb : |(1 : ℚ) / 10| < 1 / 5 := by norm_num [abs_lt]
    norm_num [simExit, simEntry, simDefault, PnlTracker.mkSimulator,
      PnlTracker.checkEntrySignal, PnlTracker.checkExitSignal,
      PnlTracker.closePosition, PnlTracker.calculatePnl, ha, hb]
  · have ha : (2 : ℚ) < |5 / 2| := by norm_num [lt_abs]
    have hb : |(1 : ℚ) / 10| < 1 / 5 := by norm_num [abs_lt]
    norm_num [simExit, simEntry, simDefault, PnlTracker.mkSimulator,
      PnlTracker.checkEntrySignal, PnlTracker.checkExitSignal,
      PnlTracker.closePosition, PnlTracker.calculatePnl, ha, hb]

/-- Witness for C2: from the fresh default simulator, `zscore = 2.5` triggers
an entry. -/
theorem entry_signal_spec_witness :
    (PnlTracker.checkEntrySignal simDefault (5 / 2) 10 100 50 2 0).1.isSome := by
  have h := (entry_signal_spec simDefault (5 / 2) 10 100 50 2 0).1
  exact h.mpr ⟨rfl, by norm_num [simDefault, PnlTracker.mkSimulator, lt_abs]⟩

lemma checkRule_cooldown_aux (st : Alerts.EngineState) (rule : Alerts.AlertRule)
    (v : ℚ) (data : Option Alerts.AnalyticsData) (now t : ℚ)
    (h : st.last_trigger_times.lookup rule.rule_id = some t)
    (hlt : now - t < rule.cooldown_seconds) :
    Alerts.checkRule st rule v data now = (none, [], st) := by
  have hc : Alerts.cooldownActive st rule now = true := by
    unfold Alerts.cooldownActive
    rw [h]
    simpa using hlt
  cases he : rule.enabled <;> simp [Alerts.checkRule, he, hc]

/-- C3: `check_rule` returns no alert when the rule is disabled, when the rule
is within its cooldown, when the condition predicate is false, or when the
predicate raises (the exception is caught, never propagated); when it triggers,
the Alert message is built from the message template with symbol/value/threshold,
the rule's last trigger time is updated, the Alert is appended to the history and
every registered callback is invoked in registration order — an individual
callback's exception being caught without preventing the other callbacks or the
returned Alert (the invocation outcome list spans every registered callback). -/
theorem check_rule_spec (st : Alerts.EngineState) (rule : Alerts.AlertRule)
    (v : ℚ) (data : Option Alerts.AnalyticsData) (now : ℚ) :
    (rule.enabled = false → Alerts.checkRule st rule v data now = (none, [], st))
    ∧ (∀ t, st.last_trigger_times.lookup rule.rule_id = some t →
        now - t < rule.cooldown_seconds →
        Alerts.checkRule st rule v data now = (none, [], st))
    ∧ (∀ e, rule.condition v rule.threshold data = .error e →
        Alerts.checkRule st rule v data now = (none, [], st))
    ∧ (rule.condition v rule.threshold data = .ok false →
        Alerts.checkRule st rule v data now = (none, [], st))
    ∧ (rule.enabled = true → Alerts.cooldownActive st rule now = false →
        rule.condition v rule.threshold data = .ok true →
        ∃ a : Alerts.Alert,
          Alerts.checkRule st rule v data now =
            (some a, st.callbacks.map (fun cb => cb a),
              { st with
                  last_trigger_times :=
                    Alerts.setKey st.last_trigger_times rule.rule_id now
                  alert_history := st.alert_history ++ [a] }) ∧
          a.message =
            Alerts.formatMessage rule.message_template rule.symbol v rule.threshold ∧
          a.rule_id = rule.rule_id ∧ a.alert_type = rule.alert_type ∧
          a.symbol = rule.symbol ∧ a.severity = rule.severity ∧
          a.value = v ∧ a.threshold = rule.threshold ∧ a.timestamp = now) := by
  refine ⟨?_, ?_, ?_, ?_, ?_⟩
  · intro he
    simp [Alerts.checkRule, he]
  · exact fun t h hlt => checkRule_cooldown_aux st rule v data now t h hlt
  · intro e hcond
    cases he : rule.enabled
    · simp [Alerts.checkRule, he]
    · by_cases hc : Alerts.cooldownActive st rule now <;>
        simp [Alerts.checkRule, he, hc, hcond]
  · intro hcond
    cases he : rule.enabled
    · simp [Alerts.checkRule, he]
    · by_cases hc : Alerts.cooldownActive st rule now <;>
        simp [Alerts.checkRule, he, hc, hcond]
  · intro he hc hcond
    refine ⟨{ rule_id := rule.rule_id
              alert_type := rule.alert_type
              symbol := rule.symbol
              severity := rule.severity
              message := Alerts.formatMessage rule.message_template rule.symbol
                v rule.threshold
              value := v
              threshold := rule.threshold
              timestamp := now },
        ?_, rfl, rfl, rfl, rfl, rfl, rfl, rfl, rfl⟩
    simp [Alerts.checkRule, he, hc, hcond]

/-- Witness for C3: a disabled rule produces no alert and leaves the engine
unchanged. -/
theorem check_rule_spec_witness :
    Alerts.checkRule engine0 ruleZoff 3 none 0 = (none, [], engine0) :=
  (check_rule_spec engine0 ruleZoff 3 none 0).1 rfl

/-- C4: a rule never fires twice within `cooldown_seconds` of its previous
firing — with a recorded last trigger time, `check_rule` returns no alert while
the elapsed time is strictly less than `cooldown_seconds`, and may fire again
once it is at least `cooldown_seconds`.  Concretely, `ruleZ` (cooldown 60 s)
fires on value 2.5 at `t = 0`, does not fire on value 3 at `t = 30`, fires on
value 3 at `t = 61`, and `get_recent_alerts(minutes=5)` immediately after the
first trigger returns exactly one alert. -/
theorem cooldown_spec (st : Alerts.EngineState) (rule : Alerts.AlertRule)
    (v : ℚ) (data : Option Alerts.AnalyticsData) (now t : ℚ) :
    (st.last_trigger_times.lookup rule.rule_id = some t →
      now - t < rule.cooldown_seconds →
      Alerts.checkRule st rule v data now = (none, [], st))
    ∧ (st.last_trigger_times.lookup rule.rule_id = some t →
        rule.cooldown_seconds ≤ now - t → rule.enabled = true →
        rule.condition v rule.threshold data = .ok true →
        (Alerts.checkRule st rule v data now).1.isSome)
    ∧ engineFire1.1.isSome
    ∧ (Alerts.checkRule engine1 ruleZ 3 none 30).1 = none
    ∧ (Alerts.checkRule engine1 ruleZ 3 none 61).1.isSome
    ∧ (Alerts.getRecentAlerts engine1 5 0).length = 1 := by
  have hgt : decide (|(5 : ℚ) / 2| > 2) = true :=
    decide_eq_true (by norm_num [lt_abs])
  have hgt3 : decide (|(3 : ℚ)| > 2) = true :=
    decide_eq_true (by norm_num [lt_abs])
  have h30 : decide ((30 : ℚ) - 0 < 60) = true := decide_eq_true (by norm_num)
  have h61 : decide ((61 : ℚ) - 0 < 60) = false := decide_eq_false (by norm_num)
  have hcut : decide ((0 : ℚ) - 5 * 60 < 0) = true := decide_eq_true (by norm_num)
  refine ⟨?_, ?_, ?_, ?_, ?_, ?_⟩
  · exact fun h hlt => checkRule_cooldown_aux st rule v data now t h hlt
  · intro h hge he hcond
    have hc : Alerts.cooldownActive st rule now = false := by
      unfold Alerts.cooldownActive
      rw [h]
      simpa using not_lt.mpr hge
    simp [Alerts.checkRule, he, hc, hcond]
  · simp [engineFire1, engine0, Alerts.addRule, Alerts.mkEngine, Alerts.checkRule,
      Alerts.cooldownActive, Alerts.setKey, Alerts.zscore_above, ruleZ,
      List.lookup, hgt]
  · have hp30 : (30 : ℚ) < 60 := by norm_num
    simp [engine1, engineFire1, engine0, Alerts.addRule, Alerts.mkEngine,
      Alerts.checkRule, Alerts.cooldownActive, Alerts.setKey, Alerts.zscore_above,
      ruleZ, List.lookup, hgt, h30, hp30]
  · have hp61 : ¬ ((61 : ℚ) < 60) := by norm_num
    have hd23 : decide ((2 : ℚ) < 3) = true := decide_eq_true (by norm_num)
    simp [engine1, engineFire1, engine0, Alerts.addRule, Alerts.mkEngine,
      Alerts.checkRule, Alerts.cooldownActive, Alerts.setKey, Alerts.zscore_above,
      ruleZ, List.lookup, hgt, hgt3, h61, hp61, hd23]
  · have hneg : (0 : ℚ) - 5 * 60 < 0 := by norm_num
    have hneg2 : (-300 : ℚ) < 0 := by norm_num
    simp [engine1, engineFire1, engine0, Alerts.addRule, Alerts.mkEngine,
      Alerts.checkRule, Alerts.cooldownActive, Alerts.setKey, Alerts.zscore_above,
      Alerts.getRecentAlerts, ruleZ, List.lookup, hgt, hcut, hneg, hneg2]

/-- Witness for C4: the suppressed re-evaluation 30 seconds after the first
trigger, through the general cooldown clause. -/
theorem cooldown_spec_witness :
    Alerts.checkRule engine1 ruleZ 3 none 30 = (none, [], engine1) := by
  have hgt : decide (|(5 : ℚ) / 2| > 2) = true :=
    decide_eq_true (by norm_num [lt_abs])
  have h := (cooldown_spec engine1 ruleZ 3 none 30 0).1
  apply h
  · simp [engine1, engineFire1, engine0, Alerts.addRule, Alerts.mkEngine,
      Alerts.checkRule, Alerts.cooldownActive, Alerts.setKey, Alerts.zscore_above,
      ruleZ, List.lookup, hgt]
  · norm_num [ruleZ]

/-- C10: `clear_history` empties the alert history and changes nothing else —
the rule registry, the registered callbacks, the per-rule last trigger times,
the check interval and the running flag are unchanged — so cooldown suppression
survives a history clear: a rule whose recorded trigger is within
`cooldown_seconds` still cannot fire immediately after `clear_history`. -/
theorem clear_history_frame (st : Alerts.EngineState) (rule : Alerts.AlertRule)
    (v : ℚ) (data : Option Alerts.AnalyticsData) (now t : ℚ) :
    (Alerts.clearHistory st).alert_history = []
    ∧ (Alerts.clearHistory st).rules = st.rules
    ∧ (Alerts.clearHistory st).callbacks = st.callbacks
    ∧ (Alerts.clearHistory st).last_trigger_times = st.last_trigger_times
    ∧ (Alerts.clearHistory st).check_interval = st.check_interval
    ∧ (Alerts.clearHistory st).running = st.running
    ∧ ((Alerts.clearHistory st).last_trigger_times.lookup rule.rule_id = some t →
        now - t < rule.cooldown_seconds →
        Alerts.checkRule (Alerts.clearHistory st) rule v data now =
          (none, [], Alerts.clearHistory st)) :=
  ⟨rfl, rfl, rfl, rfl, rfl, rfl,
   fun h hlt => checkRule_cooldown_aux (Alerts.clearHistory st) rule v data now t h hlt⟩

/-- Witness for C10: after clearing the history of the engine whose rule fired
at `t = 0`, the rule still cannot fire at `t = 30`. -/
theorem clear_history_frame_witness :
    Alerts.checkRule (Alerts.clearHistory engine1) ruleZ 3 none 30 =
      (none, [], Alerts.clearHistory engine1) := by
  have hgt : decide (|(5 : ℚ) / 2| > 2) = true :=
    decide_eq_true (by norm_num [lt_abs])
  have h := (clear_history_frame engine1 ruleZ 3 none 30 0).2.2.2.2.2.2
  apply h
  · simp [Alerts.clearHistory, engine1, engineFire1, engine0, Alerts.addRule,
      Alerts.mkEngine, Alerts.checkRule, Alerts.cooldownActive, Alerts.setKey,
      Alerts.zscore_above, ruleZ, List.lookup, hgt]
  · norm_num [ruleZ]
